import Mathlib

/-!
Verification of the recipe-chatbot backend helper (`backend/utils.py`).

The module holds a constant system prompt, resolves a model identifier from
the environment (after a non-overriding `.env` load), and wraps one call to
an external completion service: it ensures a system message heads the
conversation, calls the service with the full history, extracts and trims
the first choice's reply, and returns the history with one assistant
message appended.

The embedding is shallow: messages are records, the conversation is a
`List Message`, the external service is a function parameter returning
`Except`, and absent response fields are `Option`s so that the
index/key-style extraction failures of the Python code are explicit.
-/

/-- A chat message: the Python code passes dicts with a "role" and a
"content" key. -/
structure Message where
  role : String
  content : String
deriving DecidableEq, Repr

/-- The `"message"` object inside one choice of a completion response; its
`"content"` field may be absent (`none`), in which case the Python lookup
raises a key error. -/
structure ChoiceMessage where
  content : Option String
deriving DecidableEq, Repr

/-- One element of the `"choices"` list; its `"message"` field may be
absent (`none`). -/
structure Choice where
  message : Option ChoiceMessage
deriving DecidableEq, Repr

/-- The shape of the completion service's response that the code touches:
the `"choices"` list. An empty list makes the Python indexing `[0]` raise. -/
structure CompletionResponse where
  choices : List Choice
deriving DecidableEq, Repr

/-- The failures of the extraction step
`completion["choices"][0]["message"]["content"]`: indexing an empty list,
or looking up an absent key. -/
inductive ExtractError where
  | indexError : ExtractError
  | keyError : ExtractError
deriving DecidableEq, Repr

/-- Everything `get_agent_response` can raise: an error propagated from the
service call (carried verbatim), or an extraction error. -/
inductive AgentError (ε : Type) where
  | service : ε → AgentError ε
  | extraction : ExtractError → AgentError ε
deriving DecidableEq, Repr

/-- The constant `SYSTEM_PROMPT` string of `backend/utils.py`, byte for
byte (the triple-quoted literal keeps its leading newline, its four-space
indentation, a whitespace-only line, and its trailing newline). -/
def SYSTEM_PROMPT : String :=
  "\n    You are a friendly and creative culinary assistant specializing in suggesting easy-to-follow recipes.\n\n    ## Rules\n    1. Present only one recipe at a time. If the user doesn\x27t specify what ingredients they have available, assume only basic ingredients are available\n    2. Be descriptive in the steps of the recipe, so it is easy to follow\n    3. Have variety in your recipes, don\x27t just recommend the same thing over and over\n    4. You MUST suggest a complete recipe; don\x27t ask follow-up questions\n    5. Mention the serving size in the recipe. If not specified, assume 2 people\n\n    ## Always do:\n    1. Be specific, do not use words like pinch or accrording to taste\n    2. Always provide ingredient lists with precise measurements using standard units\n    3. Always include clear, step-by-step instruction\n\n    ## Never do:\n    1. Never suggest recipes that require extremely rare or unobtainable ingredients without providing readily available alternatives\n    2. Never use offensive or derogatory language\n    3. If a user asks for a recipe that is unsafe, unethical, or promotes harmful activities, politely decline and state you cannot fulfill that request, without being preachy\n    \n    ## New Ideas\n    1. Feel free to suggest common variations or substitutions for ingredients. If a direct recipe isn\x27t found, you can creatively combine elements from known recipes, clearly stating if it\x27s a novel suggestion\n\n\n    ## Output Formatting\n    1. Structure all your recipe responses clearly using Markdown for formatting\n    2. Begin every recipe response with the recipe name as a Level 2 Heading (e.g., ## Amazing Blueberry Muffins)\n    3. Immediately follow with a brief, enticing description of the dish (1-3 sentences)\n    4. Next, include a section titled ### Ingredients. List all ingredients using a Markdown unordered list (bullet points)\n    5. Following ingredients, include a section titled ### Instructions. Provide step-by-step directions using a Markdown ordered list (numbered steps)\n    6. Optionally, if relevant, add a ### Notes, ### Tips, or ### Variations section for extra advice or alternatives\n"

/-- The constant system-prompt message
`{"role": "system", "content": SYSTEM_PROMPT}` that the adapter prepends. -/
def systemPromptMessage : Message :=
  { role := "system", content := SYSTEM_PROMPT }

/-- `load_dotenv(override=False)`: the process environment seen after the
`.env` file is read. A variable already present in the process environment
wins; otherwise the `.env` file's value (if any) is used. Both the initial
process environment and the `.env` file are partial maps from names to
values. -/
def load_dotenv (dotenvFile env : String → Option String) :
    String → Option String :=
  fun key =>
    match env key with
    | some v => some v
    | none => dotenvFile key

/-- `MODEL_NAME = os.environ.get("MODEL_NAME", "gpt-4o-mini")`, evaluated
after `load_dotenv(override=False)` has run. -/
def MODEL_NAME (dotenvFile env : String → Option String) : String :=
  (load_dotenv dotenvFile env "MODEL_NAME").getD "gpt-4o-mini"

/-- The role of the first message of a history, if any:
`messages[0]["role"]`. -/
def firstRole (messages : List Message) : Option String :=
  messages.head?.map Message.role

/-- The `current_messages` computation of `get_agent_response`: if the
history is empty or its first message's role is not `"system"`, prepend the
constant system-prompt message; otherwise use the history unchanged. -/
def effectiveMessages (messages : List Message) : List Message :=
  if messages = [] ∨ firstRole messages ≠ some "system" then
    systemPromptMessage :: messages
  else
    messages

/-- `completion["choices"][0]["message"]["content"]`: take the first
choice (index error on an empty list), then the `"message"` field, then
the `"content"` field (key error when absent). -/
def firstChoiceContent (completion : CompletionResponse) :
    Except ExtractError String :=
  match completion.choices with
  | [] => Except.error ExtractError.indexError
  | choice :: _ =>
    match choice.message with
    | none => Except.error ExtractError.keyError
    | some msg =>
      match msg.content with
      | none => Except.error ExtractError.keyError
      | some s => Except.ok s

/-- `get_agent_response(messages)`. The external `litellm.completion` call
is the function parameter `service`, which receives the configured model
name and the full effective history and either fails (the exception is
propagated verbatim, wrapped as `AgentError.service`) or returns a
`CompletionResponse`. On success the reply content is extracted, stripped
of surrounding whitespace, and appended as an assistant message to the
effective history. -/
def get_agent_response {ε : Type}
    (service : String → List Message → Except ε CompletionResponse)
    (dotenvFile env : String → Option String)
    (messages : List Message) : Except (AgentError ε) (List Message) :=
  let current_messages := effectiveMessages messages
  match service (MODEL_NAME dotenvFile env) current_messages with
  | Except.error e => Except.error (AgentError.service e)
  | Except.ok completion =>
    match firstChoiceContent completion with
    | Except.error e => Except.error (AgentError.extraction e)
    | Except.ok content =>
      let assistant_reply_content := content.trim
      Except.ok (current_messages ++
        [{ role := "assistant", content := assistant_reply_content }])

/-! ### A heap model of the Python lists

Python lists are mutable heap objects; to settle the no-in-place-mutation
claim we re-run the adapter over an explicit heap of list objects. The
only list operations the source performs are list display (a fresh
allocation), `+` concatenation (a fresh allocation), and plain assignment
(aliasing, in the `else` branch `current_messages = messages`). -/

/-- A heap of Python list objects; a reference is an index into `cells`. -/
structure ListHeap where
  cells : List (List Message)
deriving Repr

/-- Dereference a list object (a dangling reference reads `[]`; theorems
only use valid references). -/
def readRef (h : ListHeap) (r : Nat) : List Message :=
  (h.cells[r]?).getD []

/-- Allocate a fresh list object, returning the new heap and the new
reference. -/
def allocRef (h : ListHeap) (l : List Message) : ListHeap × Nat :=
  (⟨h.cells ++ [l]⟩, h.cells.length)

/-- The `current_messages` step over the heap: the `if` branch allocates
the fresh list `[{system prompt}] + messages` (Python list display plus
`+`), the `else` branch is the aliasing assignment
`current_messages = messages`. Returns the heap and the reference held by
`current_messages`. -/
def current_messages_alloc (h : ListHeap) (messagesRef : Nat) :
    ListHeap × Nat :=
  let messages := readRef h messagesRef
  if messages = [] ∨ firstRole messages ≠ some "system" then
    allocRef h (systemPromptMessage :: messages)
  else
    (h, messagesRef)

/-- `get_agent_response` over the heap model. `serviceResult` is the
outcome of the `litellm.completion` call. The final
`current_messages + [...]` always allocates a fresh list. The heap is
returned in every outcome so the state after a failure is also visible. -/
def get_agent_response_heap {ε : Type}
    (serviceResult : Except ε CompletionResponse)
    (h : ListHeap) (messagesRef : Nat) :
    ListHeap × Except (AgentError ε) Nat :=
  let hc := current_messages_alloc h messagesRef
  match serviceResult with
  | Except.error e => (hc.1, Except.error (AgentError.service e))
  | Except.ok completion =>
    match firstChoiceContent completion with
    | Except.error e => (hc.1, Except.error (AgentError.extraction e))
    | Except.ok content =>
      let updated := allocRef hc.1 (readRef hc.1 hc.2 ++
        [{ role := "assistant", content := content.trim }])
      (updated.1, Except.ok updated.2)

/-! ### Helper lemmas -/

theorem firstRole_cons (m : Message) (t : List Message) :
    firstRole (m :: t) = some m.role := rfl

theorem effectiveMessages_eq_cons {H : List Message}
    (h : H = [] ∨ firstRole H ≠ some "system") :
    effectiveMessages H = systemPromptMessage :: H := by
  unfold effectiveMessages
  exact if_pos h

theorem effectiveMessages_eq_self {H : List Message}
    (h : firstRole H = some "system") :
    effectiveMessages H = H := by
  unfold effectiveMessages
  refine if_neg ?_
  rintro (hnil | hne)
  · rw [hnil] at h
    exact Option.noConfusion h
  · exact hne h

theorem effectiveMessages_ne_nil (H : List Message) :
    effectiveMessages H ≠ [] := by
  unfold effectiveMessages
  split
  · exact List.cons_ne_nil _ _
  · next hcond =>
    exact (not_or.mp hcond).1

theorem firstRole_effectiveMessages (H : List Message) :
    firstRole (effectiveMessages H) = some "system" := by
  unfold effectiveMessages
  split
  · rfl
  · next hcond =>
    exact not_not.mp (not_or.mp hcond).2

theorem firstRole_append {l l' : List Message} (hl : l ≠ []) :
    firstRole (l ++ l') = firstRole l := by
  cases l
  · exact absurd rfl hl
  · rfl

theorem get_agent_response_ok_shape {ε : Type}
    {service : String → List Message → Except ε CompletionResponse}
    {dotenvFile env : String → Option String} {H out : List Message}
    (h : get_agent_response service dotenvFile env H = Except.ok out) :
    ∃ s, out = effectiveMessages H ++
      [{ role := "assistant", content := s }] := by
  simp only [get_agent_response] at h
  split at h
  · exact Except.noConfusion h
  · split at h
    · exact Except.noConfusion h
    · simp only [Except.ok.injEq] at h
      exact ⟨_, h.symm⟩

theorem readRef_allocRef_lt (h : ListHeap) (l : List Message) {i : Nat}
    (hi : i < h.cells.length) :
    readRef (allocRef h l).1 i = readRef h i := by
  simp [readRef, allocRef, List.getElem?_append, hi]

theorem readRef_allocRef_self (h : ListHeap) (l : List Message) :
    readRef (allocRef h l).1 (allocRef h l).2 = l := by
  simp [readRef, allocRef, List.getElem?_concat_length]

theorem allocRef_length (h : ListHeap) (l : List Message) :
    (allocRef h l).1.cells.length = h.cells.length + 1 := by
  simp [allocRef]

theorem current_messages_alloc_preserves (h : ListHeap) (r : Nat)
    (i : Nat) (hi : i < h.cells.length) :
    readRef (current_messages_alloc h r).1 i = readRef h i := by
  simp only [current_messages_alloc]
  split
  · exact readRef_allocRef_lt h _ hi
  · rfl

theorem current_messages_alloc_length_le (h : ListHeap) (r : Nat) :
    h.cells.length ≤ (current_messages_alloc h r).1.cells.length := by
  simp only [current_messages_alloc]
  split
  · rw [allocRef_length]
    exact Nat.le_succ _
  · exact Nat.le_refl _

theorem current_messages_alloc_read (h : ListHeap) (r : Nat) :
    readRef (current_messages_alloc h r).1 (current_messages_alloc h r).2
      = effectiveMessages (readRef h r) := by
  by_cases hcond : readRef h r = [] ∨ firstRole (readRef h r) ≠ some "system"
  · simp only [current_messages_alloc]
    rw [if_pos hcond, effectiveMessages_eq_cons hcond, readRef_allocRef_self]
  · have hsys : firstRole (readRef h r) = some "system" :=
      not_not.mp (not_or.mp hcond).2
    simp only [current_messages_alloc]
    rw [if_neg hcond, effectiveMessages_eq_self hsys]

/-! ### Claims -/

/-- Claim C1: for every effective message sequence (the sequence after the
system-prompt check) and every service reply text `R`, including strings
with surrounding whitespace, the adapter returns exactly the effective
sequence with one message appended whose role is `"assistant"` and whose
content is `R` with leading and trailing whitespace stripped. -/
theorem claim_C1 {ε : Type} (dotenvFile env : String → Option String)
    (H : List Message) (c : CompletionResponse) (R : String)
    (h : firstChoiceContent c = Except.ok R) :
    @get_agent_response ε (fun _ _ => Except.ok c) dotenvFile env H
      = Except.ok (effectiveMessages H ++
          [{ role := "assistant", content := R.trim }]) := by
  simp [get_agent_response, h]

/-- Witness for C1: scenario A of the spec, with reply
`"  ## Pasta  "`. -/
theorem claim_C1_witness :
    @get_agent_response Nat
        (fun _ _ => Except.ok
          { choices := [{ message := some { content := some "  ## Pasta  " } }] })
        (fun _ => none) (fun _ => none) []
      = Except.ok (effectiveMessages [] ++
          [{ role := "assistant", content := ("  ## Pasta  ").trim }]) :=
  claim_C1 (fun _ => none) (fun _ => none) []
    { choices := [{ message := some { content := some "  ## Pasta  " } }] }
    "  ## Pasta  " rfl

/-- Claim C2: for every input history that is empty or whose first
message's role is not `"system"`, the effective sequence sent to the
completion service is the constant system-prompt message prepended to the
input (shown both on `effectiveMessages` and on the sequence the service
actually receives, captured through a probing service). -/
theorem claim_C2 (H : List Message)
    (h : H = [] ∨ firstRole H ≠ some "system") :
    effectiveMessages H = systemPromptMessage :: H
    ∧ ∀ (dotenvFile env : String → Option String),
        @get_agent_response (List Message) (fun _ ms => Except.error ms)
            dotenvFile env H
          = Except.error (AgentError.service (systemPromptMessage :: H)) := by
  have he := effectiveMessages_eq_cons h
  refine ⟨he, fun dotenvFile env => ?_⟩
  simp [get_agent_response, he]

/-- Witness for C2: scenario B's input `[{user, "I have eggs"}]`. -/
theorem claim_C2_witness :
    effectiveMessages [{ role := "user", content := "I have eggs" }]
        = systemPromptMessage :: [{ role := "user", content := "I have eggs" }]
    ∧ @get_agent_response (List Message) (fun _ ms => Except.error ms)
          (fun _ => none) (fun _ => none)
          [{ role := "user", content := "I have eggs" }]
        = Except.error (AgentError.service (systemPromptMessage ::
            [{ role := "user", content := "I have eggs" }])) :=
  ⟨(claim_C2 _ (Or.inr (by decide))).1,
   (claim_C2 _ (Or.inr (by decide))).2 (fun _ => none) (fun _ => none)⟩

/-- Claim C3: for every input history whose first message's role is
`"system"`, the effective sequence sent to the completion service is the
history unchanged — a caller-supplied custom system message is preserved
and no second system message is inserted. -/
theorem claim_C3 (H : List Message)
    (h : firstRole H = some "system") :
    effectiveMessages H = H
    ∧ ∀ (dotenvFile env : String → Option String),
        @get_agent_response (List Message) (fun _ ms => Except.error ms)
            dotenvFile env H
          = Except.error (AgentError.service H) := by
  have he := effectiveMessages_eq_self h
  refine ⟨he, fun dotenvFile env => ?_⟩
  simp [get_agent_response, he]

/-- Witness for C3: scenario C's input
`[{system, "custom"}, {user, "hi"}]`. -/
theorem claim_C3_witness :
    effectiveMessages [{ role := "system", content := "custom" },
        { role := "user", content := "hi" }]
      = [{ role := "system", content := "custom" },
        { role := "user", content := "hi" }]
    ∧ @get_agent_response (List Message) (fun _ ms => Except.error ms)
          (fun _ => none) (fun _ => none)
          [{ role := "system", content := "custom" },
            { role := "user", content := "hi" }]
        = Except.error (AgentError.service
            [{ role := "system", content := "custom" },
              { role := "user", content := "hi" }]) :=
  ⟨(claim_C3 [{ role := "system", content := "custom" },
      { role := "user", content := "hi" }] rfl).1,
   (claim_C3 [{ role := "system", content := "custom" },
      { role := "user", content := "hi" }] rfl).2 (fun _ => none) (fun _ => none)⟩

/-- Claim C4: for every input history and every successful service reply,
the returned sequence is non-empty, starts with a message of role
`"system"`, ends with the newly produced assistant message, and is exactly
one longer than the effective sequence. -/
theorem claim_C4 {ε : Type}
    (service : String → List Message → Except ε CompletionResponse)
    (dotenvFile env : String → Option String) (H out : List Message)
    (h : get_agent_response service dotenvFile env H = Except.ok out) :
    out ≠ []
    ∧ firstRole out = some "system"
    ∧ (∃ s, out = effectiveMessages H ++ [{ role := "assistant", content := s }]
        ∧ out.getLast? = some { role := "assistant", content := s })
    ∧ out.length = (effectiveMessages H).length + 1 := by
  obtain ⟨s, hs⟩ := get_agent_response_ok_shape h
  subst hs
  refine ⟨by simp, ?_, ⟨s, rfl, by simp⟩, by simp⟩
  rw [firstRole_append (effectiveMessages_ne_nil H)]
  exact firstRole_effectiveMessages H

/-- Witness for C4: the empty history with reply `"ok"`. -/
theorem claim_C4_witness :
    [systemPromptMessage, { role := "assistant", content := "ok".trim }] ≠ []
    ∧ firstRole [systemPromptMessage,
        { role := "assistant", content := "ok".trim }] = some "system"
    ∧ (∃ s, [systemPromptMessage, { role := "assistant", content := "ok".trim }]
          = effectiveMessages [] ++ [{ role := "assistant", content := s }]
        ∧ List.getLast? [systemPromptMessage,
            { role := "assistant", content := "ok".trim }]
            = some { role := "assistant", content := s })
    ∧ List.length [systemPromptMessage,
        { role := "assistant", content := "ok".trim }]
        = (effectiveMessages []).length + 1 :=
  @claim_C4 Nat
    (fun _ _ => Except.ok { choices := [{ message := some { content := some "ok" } }] })
    (fun _ => none) (fun _ => none) [] _ rfl

/-- Claim C5: a failure of the external call is propagated (its payload
carried verbatim), an empty choice list fails with the index-style error,
and an absent message or content field fails with the key-style error; in
every case the adapter produces no output sequence and attempts no
recovery. -/
theorem claim_C5 {ε : Type} (dotenvFile env : String → Option String)
    (H : List Message) :
    (∀ e : ε, @get_agent_response ε (fun _ _ => Except.error e) dotenvFile env H
        = Except.error (AgentError.service e))
    ∧ (∀ c : CompletionResponse, c.choices = [] →
        @get_agent_response ε (fun _ _ => Except.ok c) dotenvFile env H
          = Except.error (AgentError.extraction ExtractError.indexError))
    ∧ (∀ (choice : Choice) (rest : List Choice), choice.message = none →
        @get_agent_response ε (fun _ _ => Except.ok { choices := choice :: rest })
            dotenvFile env H
          = Except.error (AgentError.extraction ExtractError.keyError))
    ∧ (∀ (choice : Choice) (m : ChoiceMessage) (rest : List Choice),
        choice.message = some m → m.content = none →
        @get_agent_response ε (fun _ _ => Except.ok { choices := choice :: rest })
            dotenvFile env H
          = Except.error (AgentError.extraction ExtractError.keyError)) := by
  refine ⟨fun e => ?_, fun c hc => ?_, fun choice rest hm => ?_,
    fun choice m rest hm hcont => ?_⟩
  · simp [get_agent_response]
  · simp [get_agent_response, firstChoiceContent, hc]
  · simp [get_agent_response, firstChoiceContent, hm]
  · simp [get_agent_response, firstChoiceContent, hm, hcont]

/-- Witness for C5: a transport failure (payload `7`), an empty choice
list, a choice with no message field, and a message with no content
field, each on the empty history. -/
theorem claim_C5_witness :
    @get_agent_response Nat (fun _ _ => Except.error 7)
        (fun _ => none) (fun _ => none) []
        = Except.error (AgentError.service 7)
    ∧ @get_agent_response Nat (fun _ _ => Except.ok { choices := [] })
        (fun _ => none) (fun _ => none) []
        = Except.error (AgentError.extraction ExtractError.indexError)
    ∧ @get_agent_response Nat
        (fun _ _ => Except.ok { choices := [{ message := none }] })
        (fun _ => none) (fun _ => none) []
        = Except.error (AgentError.extraction ExtractError.keyError)
    ∧ @get_agent_response Nat
        (fun _ _ => Except.ok { choices := [{ message := some { content := none } }] })
        (fun _ => none) (fun _ => none) []
        = Except.error (AgentError.extraction ExtractError.keyError) :=
  ⟨(claim_C5 (fun _ => none) (fun _ => none) []).1 7,
   (claim_C5 (fun _ => none) (fun _ => none) []).2.1 { choices := [] } rfl,
   (claim_C5 (fun _ => none) (fun _ => none) []).2.2.1 { message := none } [] rfl,
   (claim_C5 (fun _ => none) (fun _ => none) []).2.2.2 { message := some { content := none } }
     { content := none } [] rfl rfl⟩

/-- Counterexample for C6: when the caller already supplies a leading
system message (here `{system, "custom"}`), the effective sequence is the
history unchanged and contains the constant recipe-assistant instruction
message zero times, not exactly once. -/
theorem claim_C6_counterexample :
    effectiveMessages [{ role := "system", content := "custom" }]
        = [{ role := "system", content := "custom" }]
    ∧ ¬ ((effectiveMessages [{ role := "system", content := "custom" }]).count
          systemPromptMessage = 1) := by
  constructor
  · rfl
  · decide

/-- Claim C6 (amended): for every input history the effective sequence
passed to the backing completion API begins with a system-role message;
the constant recipe-assistant instruction message is prepended exactly
when the history is empty or does not begin with a system-role message,
in which case it occurs exactly once more in the effective sequence than
in the history; when the history already begins with a system-role
message, it occurs exactly as often as in the history (possibly zero
times). -/
theorem claim_C6 (H : List Message) :
    firstRole (effectiveMessages H) = some "system"
    ∧ ((H = [] ∨ firstRole H ≠ some "system") →
        (effectiveMessages H).count systemPromptMessage
          = H.count systemPromptMessage + 1)
    ∧ (firstRole H = some "system" →
        (effectiveMessages H).count systemPromptMessage
          = H.count systemPromptMessage) := by
  refine ⟨firstRole_effectiveMessages H, fun h => ?_, fun h => ?_⟩
  · rw [effectiveMessages_eq_cons h]
    exact List.count_cons_self _ _
  · rw [effectiveMessages_eq_self h]

/-- Witness for C6: a one-user-message history gains the constant prompt
exactly once; a custom-system-message history keeps its count (zero). -/
theorem claim_C6_witness :
    firstRole (effectiveMessages [{ role := "user", content := "hi" }])
        = some "system"
    ∧ (effectiveMessages [{ role := "user", content := "hi" }]).count
          systemPromptMessage
        = [({ role := "user", content := "hi" } : Message)].count
            systemPromptMessage + 1
    ∧ (effectiveMessages [{ role := "system", content := "custom" }]).count
          systemPromptMessage
        = [({ role := "system", content := "custom" } : Message)].count
            systemPromptMessage :=
  ⟨(claim_C6 [{ role := "user", content := "hi" }]).1,
   (claim_C6 [{ role := "user", content := "hi" }]).2.1 (Or.inr (by decide)),
   (claim_C6 [{ role := "system", content := "custom" }]).2.2 rfl⟩

/-- Counterexample for C7: with `MODEL_NAME` unset in the process
environment at start but provided by the `.env` file (which
`load_dotenv(override=False)` loads into the environment), the resolved
identifier is the file's value, not the default fallback. -/
theorem claim_C7_counterexample :
    (fun _ => (none : Option String)) "MODEL_NAME" = none
    ∧ MODEL_NAME
        (fun key => if key = "MODEL_NAME" then some "ollama/llama3" else none)
        (fun _ => none)
      ≠ "gpt-4o-mini" :=
  ⟨rfl, by decide⟩

/-- Claim C7 (amended): if `MODEL_NAME` is unset in the process
environment and absent from the optional `.env` file, the resolved model
identifier is the default `"gpt-4o-mini"`; if it is set in the process
environment to `V`, the resolved identifier is `V` (the file never
overrides it); if it is unset in the process environment but the file
provides `V`, the resolved identifier is `V`. The resolution is a pure
function of these two inputs, computed once at module load. -/
theorem claim_C7 (dotenvFile env : String → Option String) :
    (env "MODEL_NAME" = none → dotenvFile "MODEL_NAME" = none →
      MODEL_NAME dotenvFile env = "gpt-4o-mini")
    ∧ (∀ v, env "MODEL_NAME" = some v → MODEL_NAME dotenvFile env = v)
    ∧ (∀ v, env "MODEL_NAME" = none → dotenvFile "MODEL_NAME" = some v →
        MODEL_NAME dotenvFile env = v) := by
  refine ⟨fun h1 h2 => ?_, fun v hv => ?_, fun v h1 h2 => ?_⟩ <;>
    simp [load_dotenv, MODEL_NAME, *]

/-- Witness for C7: the default, a process-environment value, and a
file-only value. -/
theorem claim_C7_witness :
    MODEL_NAME (fun _ => none) (fun _ => none) = "gpt-4o-mini"
    ∧ MODEL_NAME (fun _ => none)
        (fun key => if key = "MODEL_NAME" then some "env-model" else none)
      = "env-model"
    ∧ MODEL_NAME (fun key => if key = "MODEL_NAME" then some "file-model" else none)
        (fun _ => none)
      = "file-model" :=
  ⟨(claim_C7 (fun _ => none) (fun _ => none)).1 rfl rfl,
   (claim_C7 (fun _ => none)
     (fun key => if key = "MODEL_NAME" then some "env-model" else none)).2.1
     "env-model" rfl,
   (claim_C7 (fun key => if key = "MODEL_NAME" then some "file-model" else none)
     (fun _ => none)).2.2 "file-model" rfl rfl⟩

/-- Claim C8: over the heap model of Python lists, the adapter never
mutates the caller's input list in place — after the call (returning or
failing) every pre-existing list object, the input included, holds exactly
the messages it held before — and on success the returned reference is a
newly allocated list (its reference is outside the old heap) holding the
effective sequence plus the new assistant message. -/
theorem claim_C8 {ε : Type} (serviceResult : Except ε CompletionResponse)
    (h : ListHeap) (r : Nat) (hr : r < h.cells.length) :
    (∀ i, i < h.cells.length →
      readRef (get_agent_response_heap serviceResult h r).1 i = readRef h i)
    ∧ readRef (get_agent_response_heap serviceResult h r).1 r = readRef h r
    ∧ (∀ outRef,
        (get_agent_response_heap serviceResult h r).2 = Except.ok outRef →
        h.cells.length ≤ outRef
        ∧ ∃ s, readRef (get_agent_response_heap serviceResult h r).1 outRef
            = effectiveMessages (readRef h r) ++
              [{ role := "assistant", content := s }]) := by
  rcases serviceResult with e | completion
  · have hred : @get_agent_response_heap ε (Except.error e) h r
        = ((current_messages_alloc h r).1,
           Except.error (AgentError.service e)) := rfl
    rw [hred]
    exact ⟨fun i hi => current_messages_alloc_preserves h r i hi,
      current_messages_alloc_preserves h r r hr,
      fun outRef hout => Except.noConfusion hout⟩
  · rcases hfc : firstChoiceContent completion with e' | content
    · have hred : @get_agent_response_heap ε (Except.ok completion) h r
          = ((current_messages_alloc h r).1,
             Except.error (AgentError.extraction e')) := by
        simp only [get_agent_response_heap, hfc]
      rw [hred]
      exact ⟨fun i hi => current_messages_alloc_preserves h r i hi,
        current_messages_alloc_preserves h r r hr,
        fun outRef hout => Except.noConfusion hout⟩
    · have hred : @get_agent_response_heap ε (Except.ok completion) h r
          = ((allocRef (current_messages_alloc h r).1
                (readRef (current_messages_alloc h r).1
                    (current_messages_alloc h r).2 ++
                  [{ role := "assistant", content := content.trim }])).1,
             Except.ok (allocRef (current_messages_alloc h r).1
                (readRef (current_messages_alloc h r).1
                    (current_messages_alloc h r).2 ++
                  [{ role := "assistant", content := content.trim }])).2) := by
        simp only [get_agent_response_heap, hfc]
      rw [hred]
      refine ⟨fun i hi => ?_, ?_, fun outRef hout => ?_⟩
      · rw [readRef_allocRef_lt _ _
          (lt_of_lt_of_le hi (current_messages_alloc_length_le h r))]
        exact current_messages_alloc_preserves h r i hi
      · rw [readRef_allocRef_lt _ _
          (lt_of_lt_of_le hr (current_messages_alloc_length_le h r))]
        exact current_messages_alloc_preserves h r r hr
      · have hy := Except.ok.inj hout
        subst hy
        constructor
        · exact current_messages_alloc_length_le h r
        · refine ⟨content.trim, ?_⟩
          rw [readRef_allocRef_self, current_messages_alloc_read h r]

/-- Witness for C8: a one-cell heap holding `[{user, "hi"}]`; the input
cell reads the same after a successful call. -/
theorem claim_C8_witness :
    readRef (@get_agent_response_heap Nat
        (Except.ok { choices := [{ message := some { content := some "ok" } }] })
        { cells := [[{ role := "user", content := "hi" }]] } 0).1 0
      = readRef { cells := [[{ role := "user", content := "hi" }]] } 0 :=
  (claim_C8 (Except.ok { choices := [{ message := some { content := some "ok" } }] })
    { cells := [[{ role := "user", content := "hi" }]] } 0 (by decide)).2.1

/-- Claim C9: the system-prompt injection step is idempotent — applying
the effective-sequence computation to its own result changes nothing —
and any sequence returned by the adapter passes through the check
unchanged when fed back in, so no second system-prompt message is ever
inserted. -/
theorem claim_C9 (H : List Message) :
    effectiveMessages (effectiveMessages H) = effectiveMessages H
    ∧ ∀ (ε : Type)
        (service : String → List Message → Except ε CompletionResponse)
        (dotenvFile env : String → Option String) (out : List Message),
        get_agent_response service dotenvFile env H = Except.ok out →
        effectiveMessages out = out := by
  constructor
  · exact effectiveMessages_eq_self (firstRole_effectiveMessages H)
  · intro ε service dotenvFile env out hout
    obtain ⟨s, hs⟩ := get_agent_response_ok_shape hout
    subst hs
    refine effectiveMessages_eq_self ?_
    rw [firstRole_append (effectiveMessages_ne_nil H)]
    exact firstRole_effectiveMessages H

/-- Witness for C9: idempotence on the empty history, and stability of a
concrete adapter output. -/
theorem claim_C9_witness :
    effectiveMessages (effectiveMessages []) = effectiveMessages []
    ∧ effectiveMessages [systemPromptMessage,
        { role := "assistant", content := "ok".trim }]
      = [systemPromptMessage, { role := "assistant", content := "ok".trim }] :=
  ⟨(claim_C9 []).1,
   (claim_C9 []).2 Nat
     (fun _ _ => Except.ok { choices := [{ message := some { content := some "ok" } }] })
     (fun _ => none) (fun _ => none)
     [systemPromptMessage, { role := "assistant", content := "ok".trim }] rfl⟩

/-- Claim C10: the adapter is deterministic relative to the service — two
invocations on equal input histories whose services return equal reply
payloads (on the sequence actually sent) return equal sequences; in
particular the output does not otherwise depend on the environment or the
model identifier. -/
theorem claim_C10 {ε : Type}
    (service1 service2 : String → List Message → Except ε CompletionResponse)
    (dotenvFile1 env1 dotenvFile2 env2 : String → Option String)
    (H : List Message)
    (hreply : service1 (MODEL_NAME dotenvFile1 env1) (effectiveMessages H)
      = service2 (MODEL_NAME dotenvFile2 env2) (effectiveMessages H)) :
    get_agent_response service1 dotenvFile1 env1 H
      = get_agent_response service2 dotenvFile2 env2 H := by
  simp only [get_agent_response, hreply]

/-- Witness for C10: the same constant service under two different
environments yields the same result. -/
theorem claim_C10_witness :
    @get_agent_response Nat (fun _ _ => Except.error 0)
        (fun _ => none) (fun _ => none) []
      = @get_agent_response Nat (fun _ _ => Except.error 0)
          (fun key => if key = "MODEL_NAME" then some "other-model" else none)
          (fun _ => none) [] :=
  claim_C10 (fun _ _ => Except.error 0) (fun _ _ => Except.error 0)
    (fun _ => none) (fun _ => none)
    (fun key => if key = "MODEL_NAME" then some "other-model" else none)
    (fun _ => none) [] rfl
